import Mathlib

/-!
Verification development for the call-quality evaluation orchestrator.

The definitions below are a shallow embedding of the Python source:
  * `app/models/schemas.py`  — the data model (Pydantic schemas),
  * `app/services/orchestrator.py` — the orchestration core
    (`evaluate_call`, `_requires_deep_dive`, `_calculate_deep_dive_score`,
    `calculate_overall_score`, `generate_summary`),
  * `app/services/llm_client.py` — the `FallbackManager` fallback values.

Python dictionaries are embedded as association lists (the code only ever
iterates over them and counts entries), Python unbounded integers as `Int`,
and the float arithmetic of `_calculate_deep_dive_score` as exact rational
arithmetic in `ℚ` (every contribution is a multiple of 0.5, far below any
floating-point rounding, so the embedding is exact).
-/

/- ===== Data model, from app/models/schemas.py ===== -/

/-- Possible call outcomes (`CallOutcome` in schemas.py). -/
inductive CallOutcome
  | completed
  | scheduled
  | incomplete
  | lost
deriving DecidableEq, Repr

/-- Performance rating levels (`PerformanceRating`). -/
inductive PerformanceRating
  | exceeded
  | met
  | missed
  | na
deriving DecidableEq, Repr

/-- Compliance status levels (`ComplianceStatus`). -/
inductive ComplianceStatus
  | no_infraction
  | coaching_needed
  | violation
  | na
deriving DecidableEq, Repr

/-- Script adherence levels (`AdherenceLevel`). -/
inductive AdherenceLevel
  | high
  | medium
  | low
deriving DecidableEq, Repr

/-- Issue severity levels (`Severity`). -/
inductive Severity
  | critical
  | high
  | medium
  | low
deriving DecidableEq, Repr

/-- Complete call classification results (`CallClassification`). -/
structure CallClassification where
  sections_completed : List Int
  sections_attempted : List Int
  call_outcome : CallOutcome
  script_adherence_preview : List (String × AdherenceLevel)
  red_flags : List String
  requires_deep_dive : Bool
  early_termination_justified : Bool
deriving DecidableEq, Repr

/-- Evaluation of a single script section (`SectionEvaluation`). -/
structure SectionEvaluation where
  content_accuracy : PerformanceRating
  sequence_adherence : PerformanceRating
  language_phrasing : PerformanceRating
  customization : PerformanceRating
  critical_misses : List String
  quote : Option String
deriving DecidableEq, Repr

/-- Overall script adherence evaluation (`ScriptAdherence`). -/
structure ScriptAdherence where
  sections : List (String × SectionEvaluation)
deriving DecidableEq, Repr

/-- Individual compliance item evaluation (`ComplianceItem`). -/
structure ComplianceItem where
  name : String
  status : ComplianceStatus
  details : Option String
deriving DecidableEq, Repr

/-- Summary of compliance items by status (`ComplianceSummary`). -/
structure ComplianceSummary where
  no_infraction : List String
  coaching_needed : List String
  violations : List String
  not_applicable : List String
deriving DecidableEq, Repr

/-- Complete compliance evaluation (`Compliance`). -/
structure Compliance where
  items : List ComplianceItem
  summary : ComplianceSummary
deriving DecidableEq, Repr

/-- Individual communication skill evaluation (`CommunicationSkill`). -/
structure CommunicationSkill where
  skill : String
  rating : PerformanceRating
  «example» : Option String
deriving DecidableEq, Repr

/-- Summary of communication skills by rating (`CommunicationSummary`). -/
structure CommunicationSummary where
  exceeded : List String
  met : List String
  missed : List String
deriving DecidableEq, Repr

/-- Complete communication skills evaluation (`Communication`). -/
structure Communication where
  skills : List CommunicationSkill
  summary : CommunicationSummary
deriving DecidableEq, Repr

/-- Individual finding from deep dive analysis (`Finding`). -/
structure Finding where
  issue : String
  severity : Severity
  evidence : String
  recommendation : String
deriving DecidableEq, Repr

/-- Deep dive analysis for problematic calls (`DeepDive`). -/
structure DeepDive where
  findings : List Finding
  root_cause : String
  customer_impact : Severity
  urgent_actions : List String
deriving DecidableEq, Repr

/-- Complete evaluation result structure (`EvaluationResult`). -/
structure EvaluationResult where
  classification : CallClassification
  script_deviation : ScriptAdherence
  compliance : Compliance
  communication : Communication
  deep_dive : Option DeepDive
deriving DecidableEq, Repr

/-- Summary of the evaluation results (`EvaluationSummary` in schemas.py;
`generate_summary` returns a dict with exactly these three keys). -/
structure EvaluationSummary where
  strengths : List String
  areas_for_improvement : List String
  critical_issues : List String
deriving DecidableEq, Repr

/- ===== Fallback values, from app/services/llm_client.py (FallbackManager) ===== -/

/-- Embeds `FallbackManager._classification_fallback`. -/
def _classification_fallback : CallClassification where
  sections_completed := []
  sections_attempted := []
  call_outcome := CallOutcome.incomplete
  script_adherence_preview := []
  red_flags := ["Evaluation failed - manual review required"]
  requires_deep_dive := true
  early_termination_justified := false

/-- Embeds `FallbackManager._compliance_fallback`. -/
def _compliance_fallback : Compliance where
  items := []
  summary :=
    { no_infraction := []
      coaching_needed := []
      violations := ["Manual review required due to evaluation failure"]
      not_applicable := [] }

/-- Embeds `FallbackManager._communication_fallback`. -/
def _communication_fallback : Communication where
  skills := []
  summary :=
    { exceeded := []
      met := []
      missed := ["Manual evaluation required due to system failure"] }

/-- Embeds `FallbackManager._script_adherence_fallback`, which is the empty
value `ScriptAdherence(sections=\x7b\x7d)`. -/
def _script_adherence_fallback : ScriptAdherence where
  sections := []

/- ===== Deep-dive gate, from app/services/orchestrator.py ===== -/

/-- Python `int()` applied to a rational: truncation toward zero. -/
def ratTrunc (q : ℚ) : Int :=
  if 0 ≤ q then ⌊q⌋ else ⌈q⌉

/-- The number of `low` entries of `script_adherence_preview` (the
`script_issues` local of `_calculate_deep_dive_score`). -/
def lowAdherenceCount (classification : CallClassification) : Nat :=
  (classification.script_adherence_preview.filter
    (fun kv => decide (kv.2 = AdherenceLevel.low))).length

/-- Embeds `CallQAOrchestrator._calculate_deep_dive_score`: severity score for the
deep dive decision, accumulated exactly as in the source (red flags capped at
3, half a point per coaching item capped at 2, low-adherence sections capped
at 2, call-outcome penalties, systemic-issues bonus), with the final
`int(score)` truncation. -/
def _calculate_deep_dive_score
    (classification : CallClassification) (compliance : Compliance) : Int :=
  let score : ℚ := 0
  let red_flag_score : ℚ := min ((classification.red_flags.length : ℚ)) 3
  let score := score + red_flag_score
  let coaching_score : ℚ :=
    min ((compliance.summary.coaching_needed.length : ℚ) * 0.5) 2
  let score := score + coaching_score
  let script_issues : Nat := lowAdherenceCount classification
  let script_score : ℚ := min ((script_issues : ℚ)) 2
  let score := score + script_score
  let score :=
    if classification.call_outcome = CallOutcome.lost then score + 1
    else if classification.call_outcome = CallOutcome.incomplete ∧
        ¬ classification.early_termination_justified then score + 2
    else score
  let issue_categories : Nat :=
    (if classification.red_flags.length > 0 then 1 else 0) +
    (if compliance.summary.coaching_needed.length > 0 then 1 else 0) +
    (if script_issues > 0 then 1 else 0)
  let score := if issue_categories ≥ 2 then score + 1 else score
  ratTrunc score

/-- Embeds `CallQAOrchestrator._requires_deep_dive`: critical triggers (any
compliance violation, or the classification flag) short-circuit to `true`;
otherwise the severity score is compared against the threshold 3. -/
def _requires_deep_dive
    (classification : CallClassification) (compliance : Compliance) : Bool :=
  if compliance.summary.violations.length > 0 ∨
      classification.requires_deep_dive then
    true
  else
    _calculate_deep_dive_score classification compliance ≥ 3

/- ===== Scoring, from app/services/orchestrator.py (calculate_overall_score) ===== -/

/-- The per-finding deduction of `calculate_overall_score`: the
if/elif chain on `finding.severity.value` subtracts 20/15/10/5 for
Critical/High/Medium/Low. -/
def findingDeduction (score : Int) (finding : Finding) : Int :=
  if finding.severity = Severity.critical then score - 20
  else if finding.severity = Severity.high then score - 15
  else if finding.severity = Severity.medium then score - 10
  else if finding.severity = Severity.low then score - 5
  else score

/-- The total number of critical-miss strings across all script-adherence
sections (the `critical_misses` accumulator of `calculate_overall_score`). -/
def totalCriticalMisses (sa : ScriptAdherence) : Nat :=
  (sa.sections.map (fun kv => kv.2.critical_misses.length)).sum

/-- The pre-clamp score of `CallQAOrchestrator.calculate_overall_score`:
start at 100, subtract 15 per violation, 5 per coaching item, 3 per missed
communication skill, add 2 per exceeded skill, subtract 10 per critical
script miss, and fold the deep-dive finding deductions when present. -/
def raw_overall_score (evaluation : EvaluationResult) : Int :=
  let score : Int := 100
  let score := score - (evaluation.compliance.summary.violations.length : Int) * 15
  let score := score - (evaluation.compliance.summary.coaching_needed.length : Int) * 5
  let score := score - (evaluation.communication.summary.missed.length : Int) * 3
  let score := score + (evaluation.communication.summary.exceeded.length : Int) * 2
  let score := score - (totalCriticalMisses evaluation.script_deviation : Int) * 10
  match evaluation.deep_dive with
  | none => score
  | some dd => dd.findings.foldl findingDeduction score

/-- Embeds `CallQAOrchestrator.calculate_overall_score`: the raw weighted score
clamped by `max(1, min(100, score))`. -/
def calculate_overall_score (evaluation : EvaluationResult) : Int :=
  max 1 (min 100 (raw_overall_score evaluation))

/- ===== Summary synthesis, from app/services/orchestrator.py (generate_summary) ===== -/

/-- The critical-miss strings contributed to `areas_for_improvement` by the
section loop of `generate_summary`: for each section, at most 2 misses,
formatted `"Section {id}: {miss}"`. -/
def sectionMissLines (sa : ScriptAdherence) : List String :=
  sa.sections.flatMap
    (fun kv => (kv.2.critical_misses.take 2).map
      (fun miss => "Section " ++ kv.1 ++ ": " ++ miss))

/-- Issue texts of deep-dive findings with severity Critical or High (the
branch of `generate_summary`'s finding loop feeding `critical_issues`);
`[]` when no deep dive is present. -/
def deepDiveCriticalHighIssues (evaluation : EvaluationResult) : List String :=
  match evaluation.deep_dive with
  | none => []
  | some dd =>
    (dd.findings.filter
      (fun f => decide (f.severity = Severity.critical ∨ f.severity = Severity.high))).map
      (fun f => f.issue)

/-- Issue texts of the remaining deep-dive findings (severity Medium or Low,
the `else` branch feeding `areas_for_improvement`); `[]` when no deep dive
is present. -/
def deepDiveOtherIssues (evaluation : EvaluationResult) : List String :=
  match evaluation.deep_dive with
  | none => []
  | some dd =>
    (dd.findings.filter
      (fun f => ¬ decide (f.severity = Severity.critical ∨ f.severity = Severity.high))).map
      (fun f => f.issue)

/-- Embeds `CallQAOrchestrator.generate_summary`: builds the three lists by
appending, then truncates them to 3 / 4 / 3 entries.  The source appends the
deep-dive finding loop's outputs in finding order, with Critical/High
findings going to `critical_issues` and the rest to `areas_for_improvement`,
which is the same as the two filtered sublists used here. -/
def generate_summary (evaluation : EvaluationResult) : EvaluationSummary :=
  let critical_issues :=
    evaluation.compliance.summary.violations
      ++ evaluation.classification.red_flags
      ++ deepDiveCriticalHighIssues evaluation
  let strengths := evaluation.communication.summary.exceeded.take 3
  let areas_for_improvement :=
    evaluation.compliance.summary.coaching_needed.take 3
      ++ evaluation.communication.summary.missed.take 3
      ++ sectionMissLines evaluation.script_deviation
      ++ deepDiveOtherIssues evaluation
  { strengths := strengths.take 3
    areas_for_improvement := areas_for_improvement.take 4
    critical_issues := critical_issues.take 3 }

/- ===== Workflow, from app/services/orchestrator.py (evaluate_call) ===== -/

/-- The post-`gather` resolution of the script-adherence slot: a raised
exception is replaced by the `ScriptAdherence` fallback. -/
def resolve_script_adherence (r : Except String ScriptAdherence) : ScriptAdherence :=
  match r with
  | Except.ok v => v
  | Except.error _ => _script_adherence_fallback

/-- The post-`gather` resolution of the compliance slot. -/
def resolve_compliance (r : Except String Compliance) : Compliance :=
  match r with
  | Except.ok v => v
  | Except.error _ => _compliance_fallback

/-- The post-`gather` resolution of the communication slot. -/
def resolve_communication (r : Except String Communication) : Communication :=
  match r with
  | Except.ok v => v
  | Except.error _ => _communication_fallback

/-- Embeds `CallQAOrchestrator.evaluate_call` over the outcomes of its
effectful stages: the Stage-1 classification outcome, the three Stage-2
branch outcomes gathered with `return_exceptions=True` (a raised exception
in a slot is replaced by that shape's fallback), and the Stage-3 deep-dive
outcome (consulted only when the gate fires; its failure is absorbed as
`none`).  A Stage-1 failure escapes the only enclosing `try`, which
re-raises, so it propagates as the overall result. -/
def evaluate_call
    (classificationResult : Except String CallClassification)
    (scriptResult : Except String ScriptAdherence)
    (complianceResult : Except String Compliance)
    (communicationResult : Except String Communication)
    (deepDiveResult : Except String DeepDive) :
    Except String EvaluationResult :=
  match classificationResult with
  | Except.error e => Except.error e
  | Except.ok classification =>
    let script_adherence := resolve_script_adherence scriptResult
    let compliance := resolve_compliance complianceResult
    let communication := resolve_communication communicationResult
    let deep_dive : Option DeepDive :=
      if _requires_deep_dive classification compliance then
        match deepDiveResult with
        | Except.ok dd => some dd
        | Except.error _ => none
      else none
    Except.ok
      { classification := classification
        script_deviation := script_adherence
        compliance := compliance
        communication := communication
        deep_dive := deep_dive }

/- ===== Spec-side definitions (stated from the spec's words, for comparison
with the definitions above, which are translated from the source) ===== -/

/-- The deep-dive deduction demanded by the spec: 20/15/10/5 per finding of
severity Critical/High/Medium/Low. -/
def findingPenalty (f : Finding) : Int :=
  match f.severity with
  | Severity.critical => 20
  | Severity.high => 15
  | Severity.medium => 10
  | Severity.low => 5

/-- Total deep-dive deduction demanded by the spec; 0 when no deep dive is
present. -/
def deepDivePenalty (evaluation : EvaluationResult) : Int :=
  match evaluation.deep_dive with
  | none => 0
  | some dd => (dd.findings.map findingPenalty).sum

/-- The overall score as the spec describes it: the clamp to [1, 100] of
100, minus 15 per compliance violation, minus 5 per coaching-needed item,
minus 3 per missed communication skill, plus 2 per exceeded communication
skill, minus 10 per critical-miss string summed across all script-adherence
sections, minus the per-finding deep-dive deduction. -/
def calculateOverallScoreSpec (evaluation : EvaluationResult) : Int :=
  max 1 (min 100
    (100
      - 15 * (evaluation.compliance.summary.violations.length : Int)
      - 5 * (evaluation.compliance.summary.coaching_needed.length : Int)
      - 3 * (evaluation.communication.summary.missed.length : Int)
      + 2 * (evaluation.communication.summary.exceeded.length : Int)
      - 10 * (totalCriticalMisses evaluation.script_deviation : Int)
      - deepDivePenalty evaluation))

/-- The severity score as the spec describes it:
`min(len(red_flags), 3) + min(0.5 * len(coaching_needed), 2) +
min(count(adherence == low), 2)`, plus 1 if the call outcome is lost, or 2
if it is incomplete with early termination not justified, plus 1 when at
least two of the three issue categories are non-empty. -/
def severityScoreSpec
    (classification : CallClassification) (compliance : Compliance) : ℚ :=
  min ((classification.red_flags.length : ℚ)) 3
    + min (0.5 * (compliance.summary.coaching_needed.length : ℚ)) 2
    + min ((lowAdherenceCount classification : ℚ)) 2
    + (if classification.call_outcome = CallOutcome.lost then 1
       else if classification.call_outcome = CallOutcome.incomplete ∧
           ¬ classification.early_termination_justified then 2
       else 0)
    + (if 2 ≤ ((if classification.red_flags ≠ [] then 1 else 0)
          + (if compliance.summary.coaching_needed ≠ [] then 1 else 0)
          + (if 0 < lowAdherenceCount classification then 1 else 0) : Nat)
       then 1 else 0)

/-- The C5 claim's reading of `areas_for_improvement`: the four sources
concatenated with no per-source cap, then truncated to 4 entries. -/
def areasUncappedSpec (evaluation : EvaluationResult) : List String :=
  evaluation.compliance.summary.coaching_needed
    ++ evaluation.communication.summary.missed
    ++ evaluation.script_deviation.sections.flatMap
        (fun kv => kv.2.critical_misses.map
          (fun miss => "Section " ++ kv.1 ++ ": " ++ miss))
    ++ deepDiveOtherIssues evaluation

/-- A compliance value whose summary holds no entries at all (used to state
what the fallback's single violation changes in the raw score). -/
def emptyCompliance : Compliance where
  items := []
  summary :=
    { no_infraction := []
      coaching_needed := []
      violations := []
      not_applicable := [] }

/- ===== Sample values used by witnesses and counterexamples ===== -/

/-- A classification with three red flags and nothing else (severity score
exactly 3). -/
def clThreeRedFlags : CallClassification where
  sections_completed := []
  sections_attempted := []
  call_outcome := CallOutcome.completed
  script_adherence_preview := []
  red_flags := ["rf1", "rf2", "rf3"]
  requires_deep_dive := false
  early_termination_justified := true

/-- A classification with two red flags and nothing else (severity score
exactly 2). -/
def clTwoRedFlags : CallClassification where
  sections_completed := []
  sections_attempted := []
  call_outcome := CallOutcome.completed
  script_adherence_preview := []
  red_flags := ["rf1", "rf2"]
  requires_deep_dive := false
  early_termination_justified := true

/-- A classification with nothing of note except the explicit deep-dive
flag. -/
def clFlagged : CallClassification where
  sections_completed := []
  sections_attempted := []
  call_outcome := CallOutcome.completed
  script_adherence_preview := []
  red_flags := []
  requires_deep_dive := true
  early_termination_justified := true

/-- A classification with no issues at all. -/
def clClean : CallClassification where
  sections_completed := []
  sections_attempted := []
  call_outcome := CallOutcome.completed
  script_adherence_preview := []
  red_flags := []
  requires_deep_dive := false
  early_termination_justified := true

/-- A compliance result with empty summary buckets. -/
def coClean : Compliance where
  items := []
  summary :=
    { no_infraction := []
      coaching_needed := []
      violations := []
      not_applicable := [] }

/-- A communication result with empty summary buckets. -/
def cmClean : Communication where
  skills := []
  summary := { exceeded := [], met := [], missed := [] }

/-- A script-adherence result with no sections. -/
def saClean : ScriptAdherence where
  sections := []

/-- A compliance result with five coaching-needed items (enough to overrun
the per-source cap of `generate_summary`). -/
def coFiveCoaching : Compliance where
  items := []
  summary :=
    { no_infraction := []
      coaching_needed := ["c1", "c2", "c3", "c4", "c5"]
      violations := []
      not_applicable := [] }

/-- A communication result with one missed skill. -/
def cmOneMissed : Communication where
  skills := []
  summary := { exceeded := [], met := [], missed := ["m1"] }

/-- An evaluation with five coaching items and one missed skill. -/
def evalFiveCoaching : EvaluationResult where
  classification := clClean
  script_deviation := saClean
  compliance := coFiveCoaching
  communication := cmOneMissed
  deep_dive := none

/-- A compliance result with exactly two violations. -/
def coTwoViolations : Compliance where
  items := []
  summary :=
    { no_infraction := []
      coaching_needed := []
      violations := ["v1", "v2"]
      not_applicable := [] }

/-- A classification with two red flags, used beside `coTwoViolations`. -/
def clTwoRedFlagsB : CallClassification where
  sections_completed := []
  sections_attempted := []
  call_outcome := CallOutcome.completed
  script_adherence_preview := []
  red_flags := ["r1", "r2"]
  requires_deep_dive := false
  early_termination_justified := true

/-- An evaluation with two compliance violations and two red flags. -/
def evalTwoViolations : EvaluationResult where
  classification := clTwoRedFlagsB
  script_deviation := saClean
  compliance := coTwoViolations
  communication := cmClean
  deep_dive := none

/-- An evaluation whose compliance slot holds the compliance fallback. -/
def evalFallbackCompliance : EvaluationResult where
  classification := clClean
  script_deviation := saClean
  compliance := _compliance_fallback
  communication := cmClean
  deep_dive := none

/- ===== Helper lemmas ===== -/

/-- Each step of the finding fold subtracts the spec's penalty for that
finding. -/
lemma findingDeduction_eq (s : Int) (f : Finding) :
    findingDeduction s f = s - findingPenalty f := by
  cases h : f.severity <;> simp [findingDeduction, findingPenalty, h]

/-- The finding fold of `calculate_overall_score` subtracts the sum of the
per-finding penalties. -/
lemma foldl_findingDeduction (l : List Finding) (s : Int) :
    l.foldl findingDeduction s = s - (l.map findingPenalty).sum := by
  induction l generalizing s with
  | nil => simp
  | cons f t ih => simp [List.foldl_cons, findingDeduction_eq, ih, sub_sub]

/-- The accumulator of `calculate_overall_score`, written as one linear
expression. -/
lemma raw_overall_score_eq (e : EvaluationResult) :
    raw_overall_score e =
      100
        - 15 * (e.compliance.summary.violations.length : Int)
        - 5 * (e.compliance.summary.coaching_needed.length : Int)
        - 3 * (e.communication.summary.missed.length : Int)
        + 2 * (e.communication.summary.exceeded.length : Int)
        - 10 * (totalCriticalMisses e.script_deviation : Int)
        - deepDivePenalty e := by
  unfold raw_overall_score deepDivePenalty
  cases h : e.deep_dive with
  | none => simp [h]; ring
  | some dd => simp [h, foldl_findingDeduction]; ring

/-- The source's accumulated severity score coincides with the spec's
one-line formula, truncation included. -/
lemma score_eq_spec (cl : CallClassification) (co : Compliance) :
    _calculate_deep_dive_score cl co = ratTrunc (severityScoreSpec cl co) := by
  unfold _calculate_deep_dive_score severityScoreSpec
  simp only [gt_iff_lt, List.length_pos, ge_iff_le, mul_comm]
  split_ifs <;> ring_nf

/- ===== Claim theorems ===== -/

/-- Claim C1: for every `EvaluationResult`, `calculate_overall_score` returns
exactly the clamp to [1, 100] of 100 minus 15 per compliance violation, 5 per
coaching item, 3 per missed skill, plus 2 per exceeded skill, minus 10 per
critical miss across all sections, minus 20/15/10/5 per deep-dive finding of
severity Critical/High/Medium/Low; in particular the result always lies in
[1, 100], never 0, negative, or above 100. -/
theorem overall_score_matches_spec (e : EvaluationResult) :
    calculate_overall_score e = calculateOverallScoreSpec e ∧
      1 ≤ calculate_overall_score e ∧ calculate_overall_score e ≤ 100 := by
  refine ⟨?_, ?_, ?_⟩
  · unfold calculate_overall_score calculateOverallScoreSpec
    rw [raw_overall_score_eq]
  · exact le_max_left 1 _
  · exact max_le (by norm_num) (min_le_left 100 _)

/-- Claim C2: when neither critical trigger holds (no compliance violation,
classification flag false), `_requires_deep_dive` returns true exactly when
the severity score of the spec's formula, truncated to an integer, is at
least 3. -/
theorem deep_dive_gate_threshold (cl : CallClassification) (co : Compliance)
    (h1 : co.summary.violations = []) (h2 : cl.requires_deep_dive = false) :
    _requires_deep_dive cl co = true ↔ 3 ≤ ratTrunc (severityScoreSpec cl co) := by
  unfold _requires_deep_dive
  rw [score_eq_spec]
  simp [h1, h2]

/-- Witness for claim C2: a pair scoring exactly 3 (three red flags, nothing
else) fires the gate, and a pair scoring exactly 2 (two red flags) does
not. -/
theorem deep_dive_gate_threshold_witness :
    _requires_deep_dive clThreeRedFlags coClean = true ∧
      _requires_deep_dive clTwoRedFlags coClean = false := by
  have h3 := deep_dive_gate_threshold clThreeRedFlags coClean rfl rfl
  have h2 := deep_dive_gate_threshold clTwoRedFlags coClean rfl rfl
  constructor
  · refine h3.mpr ?_
    simp only [severityScoreSpec, clThreeRedFlags, coClean, lowAdherenceCount,
      ratTrunc, List.filter, List.length, reduceCtorEq, if_false, reduceIte,
      List.cons_ne_nil, ne_eq, not_false_eq_true, if_true]
    norm_num
  · refine Bool.eq_false_iff.mpr (fun hT => ?_)
    have := h2.mp hT
    simp only [severityScoreSpec, clTwoRedFlags, coClean, lowAdherenceCount,
      ratTrunc, List.filter, List.length, reduceCtorEq, if_false, reduceIte,
      List.cons_ne_nil, ne_eq, not_false_eq_true, if_true] at this
    norm_num at this

/-- Claim C3: `_requires_deep_dive` returns true whenever the violations
list is non-empty or the classification's deep-dive flag is set, regardless
of every other field. -/
theorem deep_dive_critical_triggers (cl : CallClassification) (co : Compliance)
    (h : co.summary.violations ≠ [] ∨ cl.requires_deep_dive = true) :
    _requires_deep_dive cl co = true := by
  unfold _requires_deep_dive
  rcases h with h | h
  · rw [if_pos (Or.inl (List.length_pos.mpr h))]
  · rw [if_pos (Or.inr (by simp [h]))]

/-- Witness for claim C3: the flag trigger and the violation trigger each
fire on concrete inputs. -/
theorem deep_dive_critical_triggers_witness :
    _requires_deep_dive clFlagged coClean = true ∧
      _requires_deep_dive clClean _compliance_fallback = true := by
  constructor
  · exact deep_dive_critical_triggers clFlagged coClean (Or.inr rfl)
  · exact deep_dive_critical_triggers clClean _compliance_fallback
      (Or.inl (by simp [_compliance_fallback]))

/-- Claim C4: when exactly one Stage-2 branch fails, `evaluate_call`
succeeds, keeps the two successful branch outputs verbatim, and puts the
failed shape's fallback in the failed slot. -/
theorem stage2_single_branch_failure_isolated
    (cl : CallClassification) (e : String) (sa : ScriptAdherence)
    (co : Compliance) (cm : Communication) (dd : Except String DeepDive) :
    (∃ r, evaluate_call (Except.ok cl) (Except.error e) (Except.ok co)
        (Except.ok cm) dd = Except.ok r ∧
      r.script_deviation = _script_adherence_fallback ∧
        r.compliance = co ∧ r.communication = cm) ∧
    (∃ r, evaluate_call (Except.ok cl) (Except.ok sa) (Except.error e)
        (Except.ok cm) dd = Except.ok r ∧
      r.script_deviation = sa ∧
        r.compliance = _compliance_fallback ∧ r.communication = cm) ∧
    (∃ r, evaluate_call (Except.ok cl) (Except.ok sa) (Except.ok co)
        (Except.error e) dd = Except.ok r ∧
      r.script_deviation = sa ∧
        r.compliance = co ∧ r.communication = _communication_fallback) := by
  exact ⟨⟨_, rfl, rfl, rfl, rfl⟩, ⟨_, rfl, rfl, rfl, rfl⟩, ⟨_, rfl, rfl, rfl, rfl⟩⟩

/-- Claim C5 counterexample: with five coaching items and one missed skill,
the first 4 entries of `areas_for_improvement` are NOT the first 4 entries
of the full un-pre-capped concatenation (the code pre-caps coaching to 3, so
the fourth entry is the missed skill, not the fourth coaching item). -/
theorem summary_concat_cap_counterexample :
    (generate_summary evalFiveCoaching).areas_for_improvement ≠
      (areasUncappedSpec evalFiveCoaching).take 4 := by
  decide

/-- Claim C5 as amended: `critical_issues` is the plain concatenation
(violations, red flags, critical/high deep-dive issues, none pre-capped)
truncated to 3 — so with 2 violations at most 1 further entry survives —
and `strengths` is the first 3 exceeded skills; but
`areas_for_improvement` pre-caps its sources (first 3 coaching items, first
3 missed skills, at most 2 critical misses per section) before the final
4-cap. -/
theorem generate_summary_caps_amended :
    (∀ e : EvaluationResult,
      (generate_summary e).critical_issues =
        (e.compliance.summary.violations ++ e.classification.red_flags
          ++ deepDiveCriticalHighIssues e).take 3 ∧
      (generate_summary e).strengths = e.communication.summary.exceeded.take 3 ∧
      (generate_summary e).areas_for_improvement =
        (e.compliance.summary.coaching_needed.take 3
          ++ e.communication.summary.missed.take 3
          ++ sectionMissLines e.script_deviation
          ++ deepDiveOtherIssues e).take 4) ∧
    (∀ e : EvaluationResult, e.compliance.summary.violations.length = 2 →
      (generate_summary e).critical_issues =
        e.compliance.summary.violations
          ++ (e.classification.red_flags ++ deepDiveCriticalHighIssues e).take 1) := by
  constructor
  · intro e
    refine ⟨rfl, ?_, rfl⟩
    simp [generate_summary, List.take_take]
  · intro e h
    simp only [generate_summary]
    rw [List.append_assoc, List.take_append_eq_append_take, h,
      List.take_of_length_le (by rw [h]; norm_num)]

/-- Witness for the amended claim C5: with exactly two violations, only one
red flag survives the 3-cap on `critical_issues`. -/
theorem generate_summary_caps_amended_witness :
    (generate_summary evalTwoViolations).critical_issues =
      evalTwoViolations.compliance.summary.violations
        ++ (evalTwoViolations.classification.red_flags
          ++ deepDiveCriticalHighIssues evalTwoViolations).take 1 :=
  generate_summary_caps_amended.2 evalTwoViolations rfl

/-- Claim C6 counterexample: the ScriptAdherence fallback has an empty
sections map, so no field of it carries a manual-review marker (there is no
section evaluation, critical-miss string, or quote at all). -/
theorem script_fallback_no_marker_counterexample :
    _script_adherence_fallback.sections = [] ∧
      ¬ ∃ kv, kv ∈ _script_adherence_fallback.sections ∧
        (kv.2.critical_misses ≠ [] ∨ kv.2.quote ≠ none) := by
  refine ⟨rfl, ?_⟩
  rintro ⟨kv, hmem, -⟩
  simp [_script_adherence_fallback] at hmem

/-- Claim C6 as amended: the Compliance fallback carries a manual-review
violation and the Communication fallback a manual-review missed skill, but
the ScriptAdherence fallback is the empty sections map with no marker. -/
theorem fallback_manual_review_amended :
    _compliance_fallback.summary.violations =
        ["Manual review required due to evaluation failure"] ∧
      _communication_fallback.summary.missed =
        ["Manual evaluation required due to system failure"] ∧
      _script_adherence_fallback = { sections := [] } :=
  ⟨rfl, rfl, rfl⟩

/-- Claim C7: for every evaluation result, the generated summary has at most
3 critical issues, at most 4 areas for improvement, and at most 3
strengths. -/
theorem generate_summary_length_caps (e : EvaluationResult) :
    (generate_summary e).critical_issues.length ≤ 3 ∧
      (generate_summary e).areas_for_improvement.length ≤ 4 ∧
        (generate_summary e).strengths.length ≤ 3 := by
  refine ⟨?_, ?_, ?_⟩ <;> simp [generate_summary, List.length_take]

/-- Claim C8: if the deep-dive gate fires but the Stage-3 computation fails,
`evaluate_call` still succeeds and the result carries `deep_dive = none`. -/
theorem deep_dive_failure_absorbed
    (cl : CallClassification) (sR : Except String ScriptAdherence)
    (cR : Except String Compliance) (mR : Except String Communication)
    (e : String)
    (h : _requires_deep_dive cl (resolve_compliance cR) = true) :
    ∃ r, evaluate_call (Except.ok cl) sR cR mR (Except.error e) = Except.ok r ∧
      r.deep_dive = none := by
  refine ⟨_, rfl, ?_⟩
  simp only [evaluate_call]
  split <;> rfl

/-- Witness for claim C8: a flagged classification fires the gate, the
deep-dive stage fails, and the evaluation still returns a result without a
deep dive. -/
theorem deep_dive_failure_absorbed_witness :
    ∃ r, evaluate_call (Except.ok clFlagged) (Except.ok saClean)
        (Except.ok coClean) (Except.ok cmClean) (Except.error "boom") =
      Except.ok r ∧ r.deep_dive = none :=
  deep_dive_failure_absorbed clFlagged (Except.ok saClean) (Except.ok coClean)
    (Except.ok cmClean) "boom" (by decide)

/-- Claim C9: a Stage-1 classification failure aborts the whole evaluation:
whatever the other stages would have produced, the error propagates and no
result (in particular no fallback-classification result) is built. -/
theorem stage1_failure_propagates
    (e : String) (sR : Except String ScriptAdherence)
    (cR : Except String Compliance) (mR : Except String Communication)
    (dR : Except String DeepDive) :
    evaluate_call (Except.error e) sR cR mR dR = Except.error e :=
  rfl

/-- Claim C10: the compliance fallback has exactly one violation and empty
other buckets; consequently it always fires the deep-dive gate, whatever
the classification, and its violation lowers the raw overall score by 15
compared to an empty compliance summary. -/
theorem compliance_fallback_consequences :
    (_compliance_fallback.summary.violations.length = 1 ∧
      _compliance_fallback.summary.coaching_needed = [] ∧
      _compliance_fallback.summary.no_infraction = [] ∧
      _compliance_fallback.summary.not_applicable = [] ∧
      _compliance_fallback.items = []) ∧
    (∀ cl, _requires_deep_dive cl _compliance_fallback = true) ∧
    (∀ e : EvaluationResult, e.compliance = _compliance_fallback →
      raw_overall_score e =
        raw_overall_score { e with compliance := emptyCompliance } - 15) := by
  refine ⟨⟨rfl, rfl, rfl, rfl, rfl⟩, ?_, ?_⟩
  · intro cl
    unfold _requires_deep_dive
    rw [if_pos (Or.inl (by simp [_compliance_fallback]))]
  · intro e h
    rw [raw_overall_score_eq, raw_overall_score_eq]
    simp [h, _compliance_fallback, emptyCompliance, deepDivePenalty]
    ring

/-- Witness for claim C10: with the fallback compliance in place the gate
fires for a clean classification and the raw score drops by exactly 15. -/
theorem compliance_fallback_consequences_witness :
    _requires_deep_dive clClean _compliance_fallback = true ∧
      raw_overall_score evalFallbackCompliance =
        raw_overall_score
          { evalFallbackCompliance with compliance := emptyCompliance } - 15 :=
  ⟨compliance_fallback_consequences.2.1 clClean,
    compliance_fallback_consequences.2.2 evalFallbackCompliance rfl⟩
